import Mathlib

/-!
Verification development for the Proxmox VM management agent
(`proxmox_vm_agent.py`), a single-loop chat client that forwards user text
to a hosted language-model API with one callable shell tool, executes the
command the model requests, and feeds the result back into the conversation.

The embedding below translates the data model of the source program and
operations into Lean.  External effects (the HTTP transport and the local
subprocess runner) are modelled as oracles: functions supplied as
parameters whose result the program code then inspects, exactly as the
source inspects the returned JSON body or the `subprocess.run` outcome.
Python strings are modelled as Lean `String`; the Python string methods
used by the source (`strip`, `lower`, `startswith`) are given explicit
executable models (`pyStrip`, `pyLower`, `pyStartsWith`).
-/

namespace ProxmoxVMAgent

/-- Whitespace characters removed by the default form of Python `str.strip()`. -/
def isPyWhitespace (c : Char) : Bool :=
  c = ' ' || c = '\t' || c = '\n' || c = '\r' || c = '\x0b' || c = '\x0c'

/-- Strip characters satisfying `isPyWhitespace` from both ends of a list:
first the trailing ones (via reverse), then the leading ones. -/
def stripList (l : List Char) : List Char :=
  ((l.reverse.dropWhile isPyWhitespace).reverse).dropWhile isPyWhitespace

/-- Model of Python `str.strip()` (no arguments: strips whitespace). -/
def pyStrip (s : String) : String :=
  String.mk (stripList s.data)

/-- Model of Python `str.lower()` on the ASCII range (the source only
compares lowered input against the ASCII tokens "exit" and "clear"). -/
def pyLowerChar (c : Char) : Char :=
  if 'A' ≤ c ∧ c ≤ 'Z' then Char.ofNat (c.toNat + 32) else c

/-- Model of Python `str.lower()`. -/
def pyLower (s : String) : String :=
  String.mk (s.data.map pyLowerChar)

/-- Does the first list start with the second one? -/
def listStartsWith : List Char → List Char → Bool
  | _, [] => true
  | [], _ :: _ => false
  | c :: cs, p :: ps => c = p && listStartsWith cs ps

/-- Model of Python `str.startswith(pre)`. -/
def pyStartsWith (s pre : String) : Bool :=
  listStartsWith s.data pre.data

/-- A role of a conversation turn (`"role"` key of a history entry). -/
inductive Role
  | user
  | assistant
deriving DecidableEq, Repr

/-- One tool-result block, as built at lines 118-122 of the source:
`{"type": "tool_result", "tool_use_id": ..., "content": ...}`. -/
structure ToolResult where
  tool_use_id : String
  content : String
deriving DecidableEq, Repr

/-- Content of a history entry: plain text (user message or assistant
text) or a list of tool-result blocks. -/
inductive TurnContent
  | text (s : String)
  | toolResults (blocks : List ToolResult)
deriving DecidableEq, Repr

/-- One entry of `conversation_history`. -/
structure Turn where
  role : Role
  content : TurnContent
deriving DecidableEq, Repr

/-- The user turn `{"role": "user", "content": message}` appended by
`chat` (line 144) and by the payload builder (line 64). -/
def userTurn (message : String) : Turn :=
  { role := .user, content := .text message }

/-- The assistant turn `{"role": "assistant", "content": result}`
appended by `chat` (line 150). -/
def assistantTurn (result : String) : Turn :=
  { role := .assistant, content := .text result }

/-- The `content` string of a tool result
(`f"Exit code: {...}\nStdout: {...}\nStderr: {...}"`, line 121). -/
def toolResultContent (returncode : Int) (stdout stderr : String) : String :=
  "Exit code: " ++ toString returncode ++ "\nStdout: " ++ stdout ++
    "\nStderr: " ++ stderr

/-- The tool-result turn `{"role": "user", "content": [tool_result]}`
appended at line 125 of the source. -/
def toolResultTurn (id : String) (returncode : Int) (stdout stderr : String) :
    Turn :=
  { role := .user,
    content := .toolResults
      [{ tool_use_id := id,
         content := toolResultContent returncode stdout stderr }] }

/-- A content block of the API response body (`response["content"]`).
`toolUse` carries the fields the source reads: `name`, `id`, and
`input.command`; `other` stands for any block type the loop ignores. -/
inductive ContentBlock
  | text (t : String)
  | toolUse (name : String) (id : String) (command : String)
  | other (ty : String)
deriving DecidableEq, Repr

/-- The value `send_message_to_claude` returns: either the parsed JSON
body with its `content` array, or the error dictionary
`{"error": msg}` built in the `except` branch (line 88). -/
inductive ApiResponse
  | ok (content : List ContentBlock)
  | error (msg : String)
deriving DecidableEq, Repr

/-- Outcome of one `subprocess.run(command, shell=True, ..., timeout=30)`
call: the process completed with an exit code and captured output, the
30-second timeout expired (`subprocess.TimeoutExpired`), or launching
failed with some other exception. -/
inductive ExecOutcome
  | completed (returncode : Int) (stdout stderr : String)
  | timedOut
  | execError (msg : String)
deriving DecidableEq, Repr

/-- Outcome of the one `requests.post` call inside
`send_message_to_claude`: a parsed JSON body, an HTTP failure status
(which makes `raise_for_status` raise), or a request exception. -/
inductive TransportOutcome
  | ok (body : ApiResponse)
  | httpFailure (msg : String)
  | netException (msg : String)
deriving DecidableEq, Repr

/-- The display text that `process_claude_response` adds to `result_text`
for one command execution outcome (lines 127-135 of the source). -/
def execDisplay : ExecOutcome → String
  | .completed returncode stdout stderr =>
    if returncode = 0 then
      "✅ Command successful:\n" ++ stdout ++ "\n"
    else
      "❌ Command failed (exit " ++ toString returncode ++ "):\n" ++
        stderr ++ "\n"
  | .timedOut => "⏰ Command timed out\n"
  | .execError msg => "❌ Error executing command: " ++ msg ++ "\n"

/-- Modelled from the spec: the four-way outcome classification of the
Command Executor policy (success / failure / timed out / execution
error), used to state mutual exclusivity of the outcomes. -/
inductive OutcomeKind
  | success
  | failure
  | timedOut
  | execError
deriving DecidableEq, Repr

/-- Modelled from the spec: classifier assigning each execution outcome
its policy case. -/
def outcomeKind : ExecOutcome → OutcomeKind
  | .completed returncode _ _ =>
    if returncode = 0 then .success else .failure
  | .timedOut => .timedOut
  | .execError _ => .execError

/-- The `messages` list of the request payload built at line 64 of the
source: `self.conversation_history + [{"role": "user", "content":
message}]`.  (The rest of the payload - model id, token limit, system
prompt, tool schema - is constant.) -/
def build_payload_messages (conversation_history : List Turn)
    (message : String) : List Turn :=
  conversation_history ++ [userTurn message]

/-- Embedding of `send_message_to_claude` (lines 24-88): builds the
payload from the current history, performs the POST through the `net`
oracle, and converts any request exception or HTTP failure status into
the error dictionary `{"error": "API request failed: ..."}`. -/
def send_message_to_claude (net : List Turn → TransportOutcome)
    (conversation_history : List Turn) (message : String) : ApiResponse :=
  match net (build_payload_messages conversation_history message) with
  | .ok body => body
  | .httpFailure msg => .error ("API request failed: " ++ msg)
  | .netException msg => .error ("API request failed: " ++ msg)

/-- Embedding of the block-processing loop of `process_claude_response`
(lines 99-135): walks the content blocks in order, accumulating
`result_text` and appending a tool-result turn to the history for every
bash tool-use whose `subprocess.run` call returns. -/
def processBlocks (exec : String → ExecOutcome) :
    List ContentBlock → String → List Turn → String × List Turn
  | [], result_text, history => (result_text, history)
  | block :: rest, result_text, history =>
    match block with
    | .text t => processBlocks exec rest (result_text ++ t ++ "\n") history
    | .toolUse name id command =>
      if name = "bash" then
        match exec command with
        | .completed returncode stdout stderr =>
          processBlocks exec rest
            (result_text ++ execDisplay (.completed returncode stdout stderr))
            (history ++ [toolResultTurn id returncode stdout stderr])
        | .timedOut =>
          processBlocks exec rest (result_text ++ execDisplay .timedOut)
            history
        | .execError msg =>
          processBlocks exec rest
            (result_text ++ execDisplay (.execError msg)) history
      else
        processBlocks exec rest result_text history
    | .other _ => processBlocks exec rest result_text history

/-- Embedding of `process_claude_response` (lines 90-140): an error-tagged
response short-circuits to an error string; otherwise the content blocks
are processed and the accumulated text is stripped. -/
def process_claude_response (exec : String → ExecOutcome)
    (conversation_history : List Turn) (response : ApiResponse) :
    String × List Turn :=
  match response with
  | .error msg => ("❌ Error: " ++ msg, conversation_history)
  | .ok content =>
    let r := processBlocks exec content "" conversation_history
    (pyStrip r.1, r.2)

/-- The `messages` list that `send_message_to_claude` builds during a
`chat` round started from `history`: `chat` has already appended the new
user turn (line 144) before `send_message_to_claude` adds it again
(line 64). -/
def chat_round_payload (history : List Turn) (message : String) :
    List Turn :=
  build_payload_messages (history ++ [userTurn message]) message

/-- Embedding of `chat` (lines 142-152): append the user turn, send,
process, and append an assistant turn unless the result string starts
with the error marker. -/
def chat (net : List Turn → TransportOutcome)
    (exec : String → ExecOutcome) (history : List Turn)
    (message : String) : String × List Turn :=
  let h1 := history ++ [userTurn message]
  let response := send_message_to_claude net h1 message
  let r := process_claude_response exec h1 response
  if pyStartsWith r.1 "❌" then r
  else (r.1, r.2 ++ [assistantTurn r.1])

/-- What one iteration of the interactive loop did. -/
inductive StepOutcome
  | exited
  | cleared
  | skipped
  | answered (result : String)
deriving DecidableEq, Repr

/-- Embedding of one iteration of the loop of `interactive_mode`
(lines 160-176): strip the raw input line, recognise the control tokens
`exit` and `clear` case-insensitively, skip empty input, otherwise run a
chat round. -/
def interactive_step (net : List Turn → TransportOutcome)
    (exec : String → ExecOutcome) (history : List Turn)
    (rawInput : String) : List Turn × StepOutcome :=
  let user_input := pyStrip rawInput
  if pyLower user_input = "exit" then (history, .exited)
  else if pyLower user_input = "clear" then ([], .cleared)
  else if user_input = "" then (history, .skipped)
  else
    let r := chat net exec history user_input
    (r.2, .answered r.1)

/-- A JSON object with string-valued fields, as stored in the
configuration file. -/
abbrev JsonObj := List (String × String)

/-- The external state the configuration functions touch: the contents
of `~/.config/claude-proxmox/config.json` (already parsed; `none` when
the file is absent) and the `ANTHROPIC_API_KEY` environment variable. -/
structure ConfigEnv where
  config_file : Option JsonObj
  env_api_key : Option String
deriving DecidableEq, Repr

/-- Embedding of `load_config` (lines 184-200): return the file contents
when the file exists, otherwise fall back to the environment variable,
otherwise nothing. -/
def load_config (env : ConfigEnv) : Option JsonObj :=
  match env.config_file with
  | some cfg => some cfg
  | none =>
    match env.env_api_key with
    | some api_key => some [("api_key", api_key)]
    | none => none

/-- Embedding of `create_config` (lines 202-220) for the given prompt
input: strip the entered key, write `{"api_key": key}` over the config
file, and return the new state together with the written configuration. -/
def create_config (env : ConfigEnv) (enteredKey : String) :
    ConfigEnv × JsonObj :=
  let api_key := pyStrip enteredKey
  let config : JsonObj := [("api_key", api_key)]
  ({ env with config_file := some config }, config)

/-- The text the block loop accumulates for a run of text blocks: the
text of each block followed by a newline (line 101 of the source). -/
def textConcat : List String → String
  | [] => ""
  | t :: ts => t ++ "\n" ++ textConcat ts

/-- Specification side: a list of strings joined by newlines (used to
compare the accumulated text of the loop against the description in
the spec). -/
def joinNewline : List String → String
  | [] => ""
  | [t] => t
  | t :: u :: ts => t ++ "\n" ++ joinNewline (u :: ts)

/-- Specification side: the tool-result turns one pass over the given
content blocks appends to the history - exactly one per bash tool-use
block whose command run completes with an exit code, carrying the id of that
block, and none for a block whose run times out or fails to
launch. -/
def expectedToolResults (exec : String → ExecOutcome) :
    List ContentBlock → List Turn
  | [] => []
  | .text _ :: rest => expectedToolResults exec rest
  | .toolUse name id command :: rest =>
    (if name = "bash" then
      match exec command with
      | .completed returncode stdout stderr =>
        [toolResultTurn id returncode stdout stderr]
      | .timedOut => []
      | .execError _ => []
    else []) ++ expectedToolResults exec rest
  | .other _ :: rest => expectedToolResults exec rest

/-- Specification side: the turns one `process_claude_response` call
appends to the history. -/
def processAppends (exec : String → ExecOutcome) : ApiResponse → List Turn
  | .error _ => []
  | .ok content => expectedToolResults exec content

theorem textConcat_cons (t : String) (ts : List String) :
    textConcat (t :: ts) = t ++ "\n" ++ textConcat ts := rfl

theorem joinNewline_cons₂ (t u : String) (ts : List String) :
    joinNewline (t :: u :: ts) = t ++ "\n" ++ joinNewline (u :: ts) := rfl

theorem stripList_append_newline (l : List Char) :
    stripList (l ++ ['\n']) = stripList l := by
  unfold stripList
  rw [List.reverse_append]
  simp [List.dropWhile, isPyWhitespace]

theorem pyStrip_append_newline (s : String) :
    pyStrip (s ++ "\n") = pyStrip s := by
  unfold pyStrip
  rw [String.data_append]
  have h : ("\n" : String).data = ['\n'] := rfl
  rw [h, stripList_append_newline]

theorem listStartsWith_append (p r : List Char) :
    listStartsWith (p ++ r) p = true := by
  induction p with
  | nil => cases r <;> rfl
  | cons c cs ih => simp [listStartsWith, ih]

theorem pyStartsWith_append (p r : String) :
    pyStartsWith (p ++ r) p = true := by
  unfold pyStartsWith
  rw [String.data_append]
  exact listStartsWith_append p.data r.data

theorem pyStartsWith_errString (t : String) :
    pyStartsWith ("❌ Error: " ++ t) "❌" = true := by
  have h : ("❌ Error: " : String) = "❌" ++ " Error: " := by decide
  rw [h, String.append_assoc]
  exact pyStartsWith_append "❌" (" Error: " ++ t)

theorem processBlocks_snd (exec : String → ExecOutcome)
    (blocks : List ContentBlock) :
    ∀ acc history, (processBlocks exec blocks acc history).2 =
      history ++ expectedToolResults exec blocks := by
  induction blocks with
  | nil => intro acc history; simp [processBlocks, expectedToolResults]
  | cons b rest ih =>
    intro acc history
    cases b with
    | text t => simp [processBlocks, expectedToolResults, ih]
    | toolUse name id command =>
      by_cases h : name = "bash"
      · cases hx : exec command <;>
          simp [processBlocks, expectedToolResults, h, hx, ih]
      · simp [processBlocks, expectedToolResults, h, ih]
    | other ty => simp [processBlocks, expectedToolResults, ih]

theorem process_snd (exec : String → ExecOutcome)
    (history : List Turn) (response : ApiResponse) :
    (process_claude_response exec history response).2 =
      history ++ processAppends exec response := by
  cases response with
  | error msg => simp [process_claude_response, processAppends]
  | ok content =>
    simp [process_claude_response, processAppends, processBlocks_snd]

theorem processBlocks_text_map (exec : String → ExecOutcome)
    (ts : List String) :
    ∀ acc history,
      processBlocks exec (ts.map ContentBlock.text) acc history =
        (acc ++ textConcat ts, history) := by
  induction ts with
  | nil =>
    intro acc history
    simp [processBlocks, textConcat, String.append_empty]
  | cons t ts ih =>
    intro acc history
    rw [List.map_cons]
    show processBlocks exec (ts.map ContentBlock.text)
      (acc ++ t ++ "\n") history = _
    rw [ih, textConcat_cons]
    simp [String.append_assoc]

theorem textConcat_eq_joinNewline (t : String) (ts : List String) :
    textConcat (t :: ts) = joinNewline (t :: ts) ++ "\n" := by
  induction ts generalizing t with
  | nil => simp [textConcat, joinNewline, String.append_empty]
  | cons u ts ih =>
    rw [textConcat_cons, ih u, joinNewline_cons₂]
    simp [String.append_assoc]

theorem pyStrip_textConcat (ts : List String) :
    pyStrip (textConcat ts) = pyStrip (joinNewline ts) := by
  cases ts with
  | nil => rfl
  | cons t ts => rw [textConcat_eq_joinNewline, pyStrip_append_newline]

theorem chat_snd (net : List Turn → TransportOutcome)
    (exec : String → ExecOutcome) (history : List Turn)
    (message : String) :
    ∃ appended, (chat net exec history message).2 = history ++ appended := by
  simp only [chat]
  set r := process_claude_response exec (history ++ [userTurn message])
    (send_message_to_claude net (history ++ [userTurn message]) message)
    with hr
  by_cases hc : pyStartsWith r.1 "❌" = true
  · refine ⟨[userTurn message] ++ processAppends exec
      (send_message_to_claude net (history ++ [userTurn message]) message),
      ?_⟩
    rw [if_pos hc, hr, process_snd, List.append_assoc]
  · refine ⟨[userTurn message] ++ processAppends exec
      (send_message_to_claude net (history ++ [userTurn message]) message)
        ++ [assistantTurn r.1], ?_⟩
    rw [if_neg hc]
    show r.2 ++ [assistantTurn r.1] = _
    rw [hr, process_snd]
    simp [List.append_assoc]

/-- C1: the claim says the request payload of a chat round is the prior
history plus the new user turn appended once (so exactly one message
after `clear`).  The code appends the user turn to the history at line
144 and then appends it again when building the payload at line 64, so
the payload of the round following a `clear` holds the new user turn
twice (length 2, not 1).  This theorem evaluates the code at that
failing input: `clear` does reset the history to empty, but the next
payload of the next round is `[userTurn "hi", userTurn "hi"]`. -/
theorem C1_clear_then_payload_duplicates_user_turn
    (net : List Turn → TransportOutcome) (exec : String → ExecOutcome)
    (history : List Turn) :
    (interactive_step net exec history "clear").1 = [] ∧
    chat_round_payload [] "hi" = [userTurn "hi", userTurn "hi"] ∧
    (chat_round_payload [] "hi").length = 2 ∧
    (∀ (h : List Turn) (m : String),
      chat_round_payload h m = (h ++ [userTurn m]) ++ [userTurn m]) := by
  have h1 : pyLower (pyStrip "clear") = "clear" := by decide
  have h2 : pyLower (pyStrip "clear") ≠ "exit" := by decide
  refine ⟨?_, by decide, by decide, fun h m => rfl⟩
  simp [interactive_step, h1, h2]

/-- C2 (amended): the turns `process_claude_response` appends to the
conversation history are exactly one tool-result turn per bash tool-use
block whose command run completes with an exit code - the
`tool_use_id` of that turn equal to the id of the block - and no turn at all for a block
whose command times out or fails to launch. -/
theorem C2_tool_result_turns_appended (exec : String → ExecOutcome)
    (history : List Turn) (blocks : List ContentBlock) :
    (process_claude_response exec history (.ok blocks)).2 =
      history ++ expectedToolResults exec blocks := by
  simp [process_claude_response, processBlocks_snd]

/-- C2 (counterexample): a response whose only block is a bash tool-use
block with id `toolu_01` whose command times out appends no tool-result
turn at all - the history is unchanged - whereas the claim demands
exactly one appended tool-result turn for every command outcome,
including timeout. -/
theorem C2_timeout_appends_no_tool_result :
    (process_claude_response (fun _ => ExecOutcome.timedOut) [userTurn "m"]
        (ApiResponse.ok [ContentBlock.toolUse "bash" "toolu_01" "sleep 60"])).2
      = [userTurn "m"] := by decide

/-- C3: when the transport step of a chat round yields the error-tagged
result, the result string of the round is the error-marker-prefixed message,
no assistant turn is appended, no command execution is attempted (the
conclusion holds for every command-execution oracle `exec` and never
consults it), and the user turn that started the round remains at the
end of the history. -/
theorem C3_transport_error_round (net : List Turn → TransportOutcome)
    (exec : String → ExecOutcome) (history : List Turn)
    (message emsg : String)
    (h : send_message_to_claude net (history ++ [userTurn message]) message
      = .error emsg) :
    (chat net exec history message).1 = "❌ Error: " ++ emsg ∧
    pyStartsWith (chat net exec history message).1 "❌" = true ∧
    (chat net exec history message).2 = history ++ [userTurn message] := by
  have hp : process_claude_response exec (history ++ [userTurn message])
      (send_message_to_claude net (history ++ [userTurn message]) message)
      = ("❌ Error: " ++ emsg, history ++ [userTurn message]) := by
    rw [h]; rfl
  have hc : pyStartsWith ("❌ Error: " ++ emsg) "❌" = true :=
    pyStartsWith_errString emsg
  simp [chat, hp, hc]

/-- C3 witness: a concrete transport failure. -/
theorem C3_transport_error_round_witness :
    (chat (fun _ => TransportOutcome.netException "boom")
        (fun _ => ExecOutcome.timedOut) [] "hi").1 =
      "❌ Error: " ++ "API request failed: boom" ∧
    pyStartsWith (chat (fun _ => TransportOutcome.netException "boom")
        (fun _ => ExecOutcome.timedOut) [] "hi").1 "❌" = true ∧
    (chat (fun _ => TransportOutcome.netException "boom")
        (fun _ => ExecOutcome.timedOut) [] "hi").2 =
      [] ++ [userTurn "hi"] :=
  C3_transport_error_round (fun _ => TransportOutcome.netException "boom")
    (fun _ => ExecOutcome.timedOut) [] "hi" "API request failed: boom"
    (by decide)

/-- C4: for a well-formed response whose content array consists of text
blocks only, the display string returned by `process_claude_response`
is the text fields of the blocks joined by newlines and stripped of
surrounding whitespace. -/
theorem C4_text_blocks_joined (exec : String → ExecOutcome)
    (history : List Turn) (ts : List String) :
    (process_claude_response exec history
        (.ok (ts.map ContentBlock.text))).1 =
      pyStrip (joinNewline ts) := by
  simp only [process_claude_response, processBlocks_text_map,
    String.empty_append]
  exact pyStrip_textConcat ts

/-- C5: the four-way policy of the Command Executor: a completed run with
exit code 0 displays stdout under the success marker; a completed run
with a non-zero exit code displays stderr annotated with the exit code;
a timeout and a launch failure each get their own distinct display; and
- via the `outcomeKind` classifier, a function into four distinct kinds
- the four outcomes are mutually exclusive and exhaustive. -/
theorem C5_executor_policy :
    (∀ stdout stderr,
        execDisplay (.completed 0 stdout stderr) =
          "✅ Command successful:\n" ++ stdout ++ "\n") ∧
    (∀ returncode stdout stderr, returncode ≠ 0 →
        execDisplay (.completed returncode stdout stderr) =
          "❌ Command failed (exit " ++ toString returncode ++ "):\n" ++
            stderr ++ "\n") ∧
    execDisplay .timedOut = "⏰ Command timed out\n" ∧
    (∀ msg, execDisplay (.execError msg) =
        "❌ Error executing command: " ++ msg ++ "\n") ∧
    (∀ o : ExecOutcome,
        (outcomeKind o = .success ↔
          ∃ stdout stderr, o = .completed 0 stdout stderr) ∧
        (outcomeKind o = .failure ↔
          ∃ returncode stdout stderr,
            returncode ≠ 0 ∧ o = .completed returncode stdout stderr) ∧
        (outcomeKind o = .timedOut ↔ o = .timedOut) ∧
        (outcomeKind o = .execError ↔ ∃ msg, o = .execError msg)) := by
  refine ⟨fun stdout stderr => by simp [execDisplay],
    fun returncode stdout stderr h => by simp [execDisplay, h],
    rfl,
    fun msg => rfl,
    fun o => ?_⟩
  cases o with
  | completed returncode stdout stderr =>
    by_cases h : returncode = 0 <;> simp [outcomeKind, h]
  | timedOut => simp [outcomeKind]
  | execError msg => simp [outcomeKind]

/-- C5 witness: a concrete non-zero exit code takes the failure branch
of the policy. -/
theorem C5_executor_policy_witness :
    execDisplay (.completed 2 "o" "e") =
      "❌ Command failed (exit " ++ toString (2 : Int) ++ "):\n" ++
        "e" ++ "\n" :=
  C5_executor_policy.2.1 2 "o" "e" (by decide)

/-- C6: the transport never propagates a transport-level failure to its
caller: a request exception and an HTTP failure status both turn into
the same error-tagged result carrying a descriptive message, and in
every case the returned value is either the parsed body or such an
error-tagged result. -/
theorem C6_transport_never_throws (net : List Turn → TransportOutcome)
    (history : List Turn) (message : String) :
    (∀ msg,
        net (build_payload_messages history message) = .netException msg →
        send_message_to_claude net history message =
          .error ("API request failed: " ++ msg)) ∧
    (∀ msg,
        net (build_payload_messages history message) = .httpFailure msg →
        send_message_to_claude net history message =
          .error ("API request failed: " ++ msg)) ∧
    ((∃ body, net (build_payload_messages history message) = .ok body ∧
        send_message_to_claude net history message = body) ∨
      (∃ emsg, send_message_to_claude net history message =
        .error ("API request failed: " ++ emsg))) := by
  refine ⟨fun msg h => by simp [send_message_to_claude, h],
    fun msg h => by simp [send_message_to_claude, h], ?_⟩
  cases hn : net (build_payload_messages history message) with
  | ok body =>
    exact Or.inl ⟨body, rfl, by simp [send_message_to_claude, hn]⟩
  | httpFailure msg =>
    exact Or.inr ⟨msg, by simp [send_message_to_claude, hn]⟩
  | netException msg =>
    exact Or.inr ⟨msg, by simp [send_message_to_claude, hn]⟩

/-- C6 witness: a concrete request exception. -/
theorem C6_transport_never_throws_witness :
    send_message_to_claude (fun _ => TransportOutcome.netException
      "connection refused") [] "hi" =
      .error ("API request failed: " ++ "connection refused") :=
  (C6_transport_never_throws
    (fun _ => TransportOutcome.netException "connection refused") [] "hi").1
    "connection refused" rfl

/-- C7: the conversation history is append-only up to explicit reset:
response processing and a chat round only ever extend the history by
appending turns at the end, and one interactive-loop step either
extends the history the same way or - exactly when the stripped,
lowered input line is the `clear` control command - replaces it with
the empty sequence. -/
theorem C7_history_append_only :
    (∀ (exec : String → ExecOutcome) (history : List Turn)
        (response : ApiResponse), ∃ appended,
        (process_claude_response exec history response).2 =
          history ++ appended) ∧
    (∀ (net : List Turn → TransportOutcome) (exec : String → ExecOutcome)
        (history : List Turn) (message : String), ∃ appended,
        (chat net exec history message).2 = history ++ appended) ∧
    (∀ (net : List Turn → TransportOutcome) (exec : String → ExecOutcome)
        (history : List Turn) (rawInput : String),
        (∃ appended, (interactive_step net exec history rawInput).1 =
          history ++ appended) ∨
        (pyLower (pyStrip rawInput) = "clear" ∧
          (interactive_step net exec history rawInput).1 = [])) := by
  refine ⟨fun exec history response =>
      ⟨processAppends exec response, process_snd exec history response⟩,
    fun net exec history message => chat_snd net exec history message,
    fun net exec history rawInput => ?_⟩
  by_cases hexit : pyLower (pyStrip rawInput) = "exit"
  · exact Or.inl ⟨[], by simp [interactive_step, hexit]⟩
  by_cases hclear : pyLower (pyStrip rawInput) = "clear"
  · exact Or.inr ⟨hclear, by simp [interactive_step, hexit, hclear]⟩
  by_cases hempty : pyStrip rawInput = ""
  · refine Or.inl ⟨[], ?_⟩
    have h1 : pyLower "" ≠ "exit" := by decide
    have h2 : pyLower "" ≠ "clear" := by decide
    simp [interactive_step, hempty, h1, h2]
  · obtain ⟨appended, happ⟩ :=
      chat_snd net exec history (pyStrip rawInput)
    refine Or.inl ⟨appended, ?_⟩
    simp only [interactive_step, if_neg hexit, if_neg hclear,
      if_neg hempty]
    exact happ

/-- C8 (counterexample): the setup prompt strips the entered key
(line 207 of the source), so entering the key `" k "` and reading the
configuration back yields the key `"k"`, not the entered string. -/
theorem C8_roundtrip_strips_entered_key :
    load_config (create_config ⟨none, none⟩ " k ").1 =
      some [("api_key", "k")] ∧
    load_config (create_config ⟨none, none⟩ " k ").1 ≠
      some [("api_key", " k ")] := by decide

/-- C8 (amended): for every API key string entered at the setup prompt
and every prior configuration state, writing with `create_config` and
reading back with `load_config` yields a configuration containing that
key stripped of surrounding whitespace (hence the entered string itself
whenever it carries no surrounding whitespace). -/
theorem C8_roundtrip_stripped (env : ConfigEnv) (enteredKey : String) :
    load_config (create_config env enteredKey).1 =
      some [("api_key", pyStrip enteredKey)] := rfl

/-- C9 (counterexample): with the distinct entered keys `"key1"` and
`" key2 "`, running setup twice makes `load_config` return the stripped
second key `"key2"`, not the second key as entered. -/
theorem C9_second_setup_returns_stripped_key :
    ("key1" : String) ≠ " key2 " ∧
    load_config
        ((create_config ((create_config ⟨none, none⟩ "key1").1)
          " key2 ").1) = some [("api_key", "key2")] ∧
    load_config
        ((create_config ((create_config ⟨none, none⟩ "key1").1)
          " key2 ").1) ≠ some [("api_key", " key2 ")] := by decide

/-- C9 (amended): last-write-wins: for every pair of entered keys,
running setup with the first and then the second leaves the
configuration file holding exactly the single field
`api_key = pyStrip k2`, so `load_config` returns only the stripped
second key and the earlier key is not retained anywhere in the
configuration. -/
theorem C9_last_write_wins (env : ConfigEnv) (k1 k2 : String) :
    load_config ((create_config ((create_config env k1).1) k2).1) =
      some [("api_key", pyStrip k2)] := rfl

/-- C10 (counterexample): a fully successful round whose only content
block is a bash tool-use whose command times out produces the
result string `"⏰ Command timed out"`, which does not start with the
`'❌'` marker, so the chat round DOES append an assistant turn - the
claim asserts that no assistant turn is appended in the timeout case. -/
theorem C10_timeout_appends_assistant_turn :
    chat (fun _ => TransportOutcome.ok
        (.ok [ContentBlock.toolUse "bash" "id1" "sleep 60"]))
        (fun _ => ExecOutcome.timedOut) [] "check disk" =
      ("⏰ Command timed out",
        [userTurn "check disk",
          assistantTurn "⏰ Command timed out"]) := by decide

/-- C10 (amended): the chat round decides whether to append an
assistant turn solely by testing whether the result string of the interpreter starts with `'❌'`: a round whose result starts with `'❌'`
appends no assistant turn beyond the turns response processing itself
appended, a round whose result does not appends exactly one; a
timed-out command yields the `'⏰'`-prefixed result string, so in that
case the assistant turn IS appended. -/
theorem C10_assistant_append_decided_by_marker
    (net : List Turn → TransportOutcome) (exec : String → ExecOutcome)
    (history : List Turn) (message : String) :
    (pyStartsWith (process_claude_response exec
          (history ++ [userTurn message])
          (send_message_to_claude net (history ++ [userTurn message])
            message)).1 "❌" = true →
      chat net exec history message =
        process_claude_response exec (history ++ [userTurn message])
          (send_message_to_claude net (history ++ [userTurn message])
            message)) ∧
    (pyStartsWith (process_claude_response exec
          (history ++ [userTurn message])
          (send_message_to_claude net (history ++ [userTurn message])
            message)).1 "❌" = false →
      chat net exec history message =
        ((process_claude_response exec (history ++ [userTurn message])
            (send_message_to_claude net (history ++ [userTurn message])
              message)).1,
          (process_claude_response exec (history ++ [userTurn message])
            (send_message_to_claude net (history ++ [userTurn message])
              message)).2 ++
            [assistantTurn (process_claude_response exec
              (history ++ [userTurn message])
              (send_message_to_claude net (history ++ [userTurn message])
                message)).1])) ∧
    (∀ id command,
      chat (fun _ => TransportOutcome.ok
          (.ok [ContentBlock.toolUse "bash" id command]))
        (fun _ => ExecOutcome.timedOut) history message =
      ("⏰ Command timed out",
        (history ++ [userTurn message]) ++
          [assistantTurn "⏰ Command timed out"])) := by
  refine ⟨fun h => by simp [chat, h], fun h => by simp [chat, h], ?_⟩
  intro id command
  have hs : pyStrip "⏰ Command timed out\n" =
      "⏰ Command timed out" := by decide
  have hc : pyStartsWith "⏰ Command timed out" "❌" = false := by decide
  simp [chat, send_message_to_claude, process_claude_response,
    processBlocks, execDisplay, hs, hc]

/-- C10 witness: a concrete round whose first content block is a bash
tool-use whose command exits non-zero: the result starts with `'❌'`
and no assistant turn is appended. -/
theorem C10_assistant_append_decided_by_marker_witness :
    chat (fun _ => TransportOutcome.ok
        (.ok [ContentBlock.toolUse "bash" "i" "c"]))
        (fun _ => ExecOutcome.completed 1 "" "boom") [] "m" =
      process_claude_response (fun _ => ExecOutcome.completed 1 "" "boom")
        ([] ++ [userTurn "m"])
        (send_message_to_claude (fun _ => TransportOutcome.ok
            (.ok [ContentBlock.toolUse "bash" "i" "c"]))
          ([] ++ [userTurn "m"]) "m") :=
  (C10_assistant_append_decided_by_marker
    (fun _ => TransportOutcome.ok
      (.ok [ContentBlock.toolUse "bash" "i" "c"]))
    (fun _ => ExecOutcome.completed 1 "" "boom") [] "m").1 (by decide)

end ProxmoxVMAgent
